import Mathlib

/-!
Shallow embedding of the k8s failure-dataset generator
(`dataset-generator.py`, the static-config script, and
`azure/datasetgen.py`, the environment-driven script).

Conventions of the embedding:
* Kubernetes API calls and HTTP requests are modelled by passing their
  outcome explicitly (`Lookup α` for calls whose exceptions the function
  catches itself, `Except String α` for calls whose exceptions propagate).
* Python `None` is `Option.none`; Python truthiness on strings/lists is
  tested explicitly (`""` and `[]` are falsy, a datetime is always truthy,
  so `if event.last_timestamp` is `Option.isSome`).
* Timestamps are modelled as whole seconds (`Nat`); `str(timedelta)`
  with microseconds stripped (`.split('.')[0]`) is `ageStr`.
* Values that are dynamically `str` or `int` in Python (a pod "reason"
  can be either) are modelled by the sum `RVal`.
* Metric values are modelled as exact rationals (`Rat`).
-/

/-- Outcome of a Kubernetes client call whose exceptions the calling
function catches itself: either the returned value or the message of the
raised exception. -/
inductive Lookup (α : Type) where
  | ok (v : α)
  | exn (msg : String)
deriving Repr, DecidableEq

/-- A value that is dynamically `str` or `int` in the Python source
(a container "reason" can be either). -/
inductive RVal where
  | s (v : String)
  | i (v : Int)
deriving Repr, DecidableEq

/-- Rendering of an `RVal` inside an f-string (`str` of the value). -/
def RVal.render : RVal → String
  | .s v => v
  | .i v => toString v

/-- Python `r or ec` where `r : str | None` and `ec : int`: the reason
string when it is truthy (non-`None`, non-empty), else the exit code. -/
def pyOr (r : Option String) (ec : Int) : RVal :=
  match r with
  | some v => if v = "" then .i ec else .s v
  | none => .i ec

/-- `container.state.terminated` of the Kubernetes API. -/
structure TerminatedState where
  reason : Option String
  exit_code : Int
deriving Repr, DecidableEq

/-- `container.state.waiting` of the Kubernetes API. -/
structure WaitingState where
  reason : Option String
deriving Repr, DecidableEq

/-- `container.state` of the Kubernetes API: at most one of the two
branches the scripts inspect is populated. -/
structure ContainerState where
  waiting : Option WaitingState
  terminated : Option TerminatedState
deriving Repr, DecidableEq

/-- One entry of `pod.status.container_statuses` /
`pod.status.init_container_statuses`. -/
structure ContainerStatus where
  state : ContainerState
  restart_count : Nat
  ready : Bool
deriving Repr, DecidableEq

/-- The parts of `pod.status` the scripts read. -/
structure PodStatusObj where
  phase : String
  reason : Option String
  init_container_statuses : Option (List ContainerStatus)
  container_statuses : Option (List ContainerStatus)
deriving Repr, DecidableEq

/-- The parts of `pod.spec` the scripts read: the declared containers
(only their count is used) and the hosting node. -/
structure PodSpecObj where
  containers : List String
  node_name : String
deriving Repr, DecidableEq

/-- A pod object as returned by `v1.read_namespaced_pod`. -/
structure PodObj where
  spec : PodSpecObj
  status : PodStatusObj
deriving Repr, DecidableEq

/-- Outcome of `v1.read_namespaced_pod`: success, an `ApiException`
carrying an HTTP status, or any other exception. -/
inductive PodLookup where
  | ok (pod : PodObj)
  | apiExn (status : Nat) (msg : String)
  | exn (msg : String)
deriving Repr, DecidableEq

/-- The six-tuple returned by `get_pod_status`. -/
structure PodStatusResult where
  status : String
  reason : Option RVal
  restarts : Nat
  ready_containers : Nat
  total_containers : Nat
  error_message : Option String
deriving Repr, DecidableEq

/-- `container.state.terminated and container.state.terminated.exit_code != 0`
(Python truthiness: a `None` terminated state is falsy). -/
def initFail (c : ContainerStatus) : Bool :=
  match c.state.terminated with
  | some t => t.exit_code ≠ 0
  | none => false

/-- The init-container loop of `get_pod_status` (static script, lines
44–49): accumulate restart counts; on the first container whose
terminated state has nonzero exit code, set the reason and `break`. -/
def initLoop : List ContainerStatus → Nat → Option RVal → Nat × Option RVal
  | [], r, reason => (r, reason)
  | c :: cs, r, reason =>
    let r := r + c.restart_count
    if initFail c then
      match c.state.terminated with
      | some t => (r, some (.s ("Init: " ++ (pyOr t.reason t.exit_code).render)))
      | none => initLoop cs r reason
    else
      initLoop cs r reason

/-- `pod.status.init_container_statuses is None or all(c.state.terminated
and c.state.terminated.exit_code == 0 for c in ...)` — guard on the
regular-container loop (a non-terminated init container is falsy, so it
fails the `all`). -/
def initOk (l : Option (List ContainerStatus)) : Bool :=
  match l with
  | none => true
  | some cs => cs.all fun c =>
      match c.state.terminated with
      | some t => t.exit_code == 0
      | none => false

/-- The regular-container loop of `get_pod_status` (static script, lines
53–58): accumulate restart counts and overwrite the reason
(waiting reason if waiting, else terminated reason-or-exit-code if
terminated); later containers win. -/
def regLoop : List ContainerStatus → Nat → Option RVal → Nat × Option RVal
  | [], r, reason => (r, reason)
  | c :: cs, r, reason =>
    let r := r + c.restart_count
    let reason :=
      match c.state.waiting with
      | some w => w.reason.map RVal.s
      | none =>
        match c.state.terminated with
        | some t => some (pyOr t.reason t.exit_code)
        | none => reason
    regLoop cs r reason

/-- `get_pod_status` of the static script (`dataset-generator.py`,
lines 32–67). -/
def get_pod_status (pod_name : String) (lk : PodLookup) : PodStatusResult :=
  match lk with
  | .ok pod =>
    let status := pod.status.phase
    let reason : Option RVal := some (.s (pod.status.reason.getD status))
    let ready_containers :=
      ((pod.status.container_statuses.getD []).filter (·.ready)).length
    let total_containers := pod.spec.containers.length
    let (restarts, reason) :=
      initLoop (pod.status.init_container_statuses.getD []) 0 reason
    let (restarts, reason) :=
      if initOk pod.status.init_container_statuses then
        regLoop (pod.status.container_statuses.getD []) restarts reason
      else
        (restarts, reason)
    ⟨status, reason, restarts, ready_containers, total_containers, none⟩
  | .apiExn st msg =>
    if st == 404 then
      ⟨"NotFound", none, 0, 0, 0, some ("Pod " ++ pod_name ++ " not found")⟩
    else
      ⟨"Error", none, 0, 0, 0, some msg⟩
  | .exn msg => ⟨"Unknown", none, 0, 0, 0, some msg⟩

/-- `get_pod_status` of the Azure script (`azure/datasetgen.py`, lines
90–102): restarts and readiness are summed over the regular container
statuses only; init containers are never consulted. -/
def get_pod_status_az (lk : PodLookup) : PodStatusResult :=
  match lk with
  | .ok pod =>
    let status := pod.status.phase
    let reason : Option RVal := some (.s (pod.status.reason.getD status))
    let restarts :=
      ((pod.status.container_statuses.getD []).map (·.restart_count)).sum
    let ready_containers :=
      ((pod.status.container_statuses.getD []).filter (·.ready)).length
    ⟨status, reason, restarts, ready_containers, pod.spec.containers.length, none⟩
  | .apiExn st msg =>
    ⟨if st == 404 then "NotFound" else "Error", none, 0, 0, 0, some msg⟩
  | .exn msg => ⟨"Unknown", none, 0, 0, 0, some msg⟩

/-- `get_pod_node_name` (static script, lines 70–76): the pod's hosting
node, or the string "Unknown" when the lookup raises. -/
def get_pod_node_name (lk : Lookup PodObj) : String :=
  match lk with
  | .ok pod => pod.spec.node_name
  | .exn _ => "Unknown"

/-- An event record as returned by the Kubernetes event-listing calls.
Timestamps are whole seconds since an arbitrary epoch; an absent
timestamp field is `none` (a present datetime is always truthy). -/
structure Event where
  last_timestamp : Option Nat
  event_time : Option Nat
  first_timestamp : Option Nat
  type : String
  reason : String
  source_component : String
  message : String
deriving Repr, DecidableEq

/-- `get_event_timestamp` (static script lines 78–84, Azure script
lines 41–46): the first non-absent of last_timestamp, event_time,
first_timestamp (which may itself be absent). -/
def get_event_timestamp (e : Event) : Option Nat :=
  if e.last_timestamp.isSome then e.last_timestamp
  else if e.event_time.isSome then e.event_time
  else e.first_timestamp

/-- Zero-padded two-digit rendering of minutes/seconds, as in
`str(datetime.timedelta)`. -/
def two (n : Nat) : String :=
  if n < 10 then "0" ++ toString n else toString n

/-- `str(now - ts).split('.')[0]`: Python's `str` of a nonnegative
timedelta with the microsecond part stripped. -/
def ageStr (secs : Nat) : String :=
  let d := secs / 86400
  let hms := toString (secs % 86400 / 3600) ++ ":" ++ two (secs % 3600 / 60)
      ++ ":" ++ two (secs % 60)
  if d = 0 then hms
  else if d = 1 then "1 day, " ++ hms
  else toString d ++ " days, " ++ hms

/-- `sorted(valid_events, key=key, reverse=True)[0]` for a nonempty
list: Python's sort is stable, so this is the first element (in
original order) attaining the maximal key. -/
def pickLatestBy (key : Event → Nat) : List Event → Option Event
  | [] => none
  | e :: es =>
    match pickLatestBy key es with
    | none => some e
    | some m => if key m ≤ key e then some e else some m

/-- The five-field pod event summary (`Pod Event Type`, `Pod Event
Reason`, `Pod Event Age`, `Pod Event Source`, `Pod Event Message`). -/
structure PodEventSummary where
  type : String
  reason : String
  age : String
  source : String
  message : String
deriving Repr, DecidableEq

/-- The five-field node event summary (`Node Name`, `Event Reason`,
`Event Age`, `Event Source`, `Event Message`). -/
structure NodeEventSummary where
  node_name : String
  reason : String
  age : String
  source : String
  message : String
deriving Repr, DecidableEq

/-- The filtering step of `get_latest_pod_event` (static script line 90
and Azure script line 117): keep only events with a truthy
`last_timestamp`. -/
def validPodEvents (es : List Event) : List Event :=
  es.filter (·.last_timestamp.isSome)

/-- `sorted(valid_events, key=lambda x: x.last_timestamp, reverse=True)[0]`
of the pod-level correlator. -/
def podLatest (es : List Event) : Option Event :=
  pickLatestBy (fun e => e.last_timestamp.getD 0) (validPodEvents es)

/-- `get_latest_pod_event` of the static script (lines 87–118):
`lk` is the outcome of `v1.list_namespaced_event`, `now` the current
UTC time in seconds. -/
def get_latest_pod_event (lk : Lookup (List Event)) (now : Nat) :
    PodEventSummary :=
  match lk with
  | .ok events =>
    match podLatest events with
    | some latest =>
      ⟨latest.type, latest.reason,
        ageStr (now - latest.last_timestamp.getD 0),
        latest.source_component, latest.message⟩
    | none => ⟨"No recent events", "N/A", "N/A", "N/A", "N/A"⟩
  | .exn _ => ⟨"Error", "Unknown", "Unknown", "Unknown", "Unknown"⟩

/-- The filtering step of `get_latest_event_details_node` (static script
line 123, Azure script line 140): keep only events with a resolvable
timestamp. -/
def validNodeEvents (es : List Event) : List Event :=
  es.filter (fun e => (get_event_timestamp e).isSome)

/-- `sorted(valid_events, key=lambda x: get_event_timestamp(x), reverse=True)[0]`
of the node-level correlator. -/
def nodeLatest (es : List Event) : Option Event :=
  pickLatestBy (fun e => (get_event_timestamp e).getD 0) (validNodeEvents es)

/-- `get_latest_event_details_node` of the static script (lines
120–156). The `isinstance(event_timestamp, str)` re-parse branch is the
identity in this model, timestamps being already resolved to seconds. -/
def get_latest_event_details_node (node_name : String)
    (lk : Lookup (List Event)) (now : Nat) : NodeEventSummary :=
  match lk with
  | .ok events =>
    match nodeLatest events with
    | some latest =>
      ⟨node_name, latest.reason,
        ageStr (now - (get_event_timestamp latest).getD 0),
        latest.source_component, latest.message⟩
    | none => ⟨node_name, "No recent events", "N/A", "N/A", "N/A"⟩
  | .exn _ => ⟨node_name, "Unknown", "Unknown", "Unknown", "Unknown"⟩

/-- `get_latest_event_reason` of the static script (lines 158–169). -/
def get_latest_event_reason (lk : Lookup (List Event)) : String :=
  match lk with
  | .ok events =>
    match podLatest events with
    | some latest => latest.reason
    | none => "No recent events"
  | .exn _ => "Unknown"

/-- `get_last_log_entry` of the static script (lines 171–177): the tail
line when truthy, "No logs" when the call returns an empty string,
"Log retrieval error" when it raises. -/
def get_last_log_entry (lk : Lookup String) : String :=
  match lk with
  | .ok logs => if logs ≠ "" then logs else "No logs"
  | .exn _ => "Log retrieval error"

/-- `get_latest_pod_event` of the Azure script (lines 114–133): same
selection, but the found-nothing case puts `'N/A'` in all five fields
(including the type) and the lookup-failed case `'Unknown'` in all
five. -/
def get_latest_pod_event_az (lk : Lookup (List Event)) (now : Nat) :
    PodEventSummary :=
  match lk with
  | .ok events =>
    match podLatest events with
    | some latest =>
      ⟨latest.type, latest.reason,
        ageStr (now - latest.last_timestamp.getD 0),
        latest.source_component, latest.message⟩
    | none => ⟨"N/A", "N/A", "N/A", "N/A", "N/A"⟩
  | .exn _ => ⟨"Unknown", "Unknown", "Unknown", "Unknown", "Unknown"⟩

/-- `get_latest_event_details_node` of the Azure script (lines 136–156):
same selection, but the fallback cases fill every field — the node name
included — with `'N/A'` resp. `'Unknown'`. -/
def get_latest_event_details_node_az (node_name : String)
    (lk : Lookup (List Event)) (now : Nat) : NodeEventSummary :=
  match lk with
  | .ok events =>
    match nodeLatest events with
    | some latest =>
      ⟨node_name, latest.reason,
        ageStr (now - (get_event_timestamp latest).getD 0),
        latest.source_component, latest.message⟩
    | none => ⟨"N/A", "N/A", "N/A", "N/A", "N/A"⟩
  | .exn _ => ⟨"Unknown", "Unknown", "Unknown", "Unknown", "Unknown"⟩

/-- A metric mapping as returned by `query_prometheus`: pod name →
scalar value, with the first binding of a name authoritative. -/
def MetricMap : Type := List (String × Rat)

/-- Python `m.get(k, d)` on a metric mapping. -/
def metricGet (m : MetricMap) (k : String) (d : Rat) : Rat :=
  match List.find? (fun p => p.1 == k) m with
  | some p => p.2
  | none => d

/-- A CSV cell that is either a number or the `'N/A'` string. -/
inductive CellVal where
  | num (q : Rat)
  | na
deriving Repr, DecidableEq

/-- Python `m.get(k, 'N/A')`. -/
def metricGetNA (m : MetricMap) (k : String) : CellVal :=
  match List.find? (fun p => p.1 == k) m with
  | some p => .num p.2
  | none => .na

/-- `b.isPrefixOf`-style check that `needle` starts `hay`. -/
def leadsWith : List Char → List Char → Bool
  | [], _ => true
  | _ :: _, [] => false
  | a :: as, b :: bs => a == b && leadsWith as bs

/-- Helper for Python's `needle in hay` substring test. -/
def containsSub (needle : List Char) : List Char → Bool
  | [] => leadsWith needle []
  | c :: t => leadsWith needle (c :: t) || containsSub needle t

/-- Python `needle in hay` on strings. -/
def strContains (hay needle : String) : Bool :=
  containsSub needle.toList hay.toList

/-- `EXCLUDE_POD_NAMES` (identical in both scripts). -/
def EXCLUDE_POD_NAMES : List String :=
  ["opensearch", "prometheus", "otelcol", "loadgenerator",
   "jaeger", "grafana", "featureflagservice"]

/-- `should_exclude_pod`: the name contains any member of the exclusion
list as a substring. -/
def should_exclude_pod (pod_name : String) : Bool :=
  EXCLUDE_POD_NAMES.any fun excluded => strContains pod_name excluded

/-- `calculate_percentage` of the static script (lines 197–198):
`(usage / limit) * 100 if limit > 0 else 'N/A'`. -/
def calculate_percentage (usage limit : Rat) : CellVal :=
  if limit > 0 then .num (usage / limit * 100) else .na

/-- `set(memory_usage_data.keys()).union(memory_limit_data.keys())`:
the candidate pod names for row emission. -/
def candidatePods (memory_usage_data memory_limit_data : MetricMap) :
    List String :=
  ((memory_usage_data.map Prod.fst) ++ (memory_limit_data.map Prod.fst)).dedup

/-- The external world one cycle of the static script observes: the
eight metric mappings returned by the Prometheus queries, the outcome of
each per-pod Kubernetes call, the cycle timestamp and the current UTC
time. -/
structure Env where
  cpu_usage_data : MetricMap
  memory_usage_data : MetricMap
  memory_limit_data : MetricMap
  network_traffic_data : MetricMap
  network_receive_data : MetricMap
  network_transmit_data : MetricMap
  network_receive_errors_data : MetricMap
  network_transmit_errors_data : MetricMap
  podLookup : String → PodLookup
  podRead : String → Lookup PodObj
  podEvents : String → Lookup (List Event)
  nodeEvents : String → Lookup (List Event)
  logOf : String → Lookup String
  timestamp : String
  now : Nat

/-- One row appended by the static script's main loop (lines 264–287);
field order follows the dict literal. -/
structure Row where
  timestamp : String
  pod_name : String
  cpu_usage : CellVal
  memory_usage_percentage : CellVal
  network_traffic : CellVal
  network_receive : CellVal
  network_transmit : CellVal
  network_receive_errors : CellVal
  network_transmit_errors : CellVal
  last_log_entry : String
  pod_status : String
  pod_reason : Option RVal
  pod_restarts : Nat
  ready_containers : Nat
  total_containers : Nat
  error_message : Option String
  latest_event_reason : String
  pod_event : PodEventSummary
  node_event : NodeEventSummary
deriving Repr, DecidableEq

/-- The per-pod body of the static script's row loop (lines 256–287). -/
def rowFor (env : Env) (pod : String) : Row :=
  let memory_usage_percentage :=
    calculate_percentage (metricGet env.memory_usage_data pod 0)
      (metricGet env.memory_limit_data pod 0)
  let event_reason := get_latest_event_reason (env.podEvents pod)
  let node_name := get_pod_node_name (env.podRead pod)
  let last_log_entry := get_last_log_entry (env.logOf pod)
  let st := get_pod_status pod (env.podLookup pod)
  let latest_pod_event_details := get_latest_pod_event (env.podEvents pod) env.now
  let latest_event_node_details :=
    get_latest_event_details_node node_name (env.nodeEvents node_name) env.now
  { timestamp := env.timestamp
    pod_name := pod
    cpu_usage := metricGetNA env.cpu_usage_data pod
    memory_usage_percentage := memory_usage_percentage
    network_traffic := metricGetNA env.network_traffic_data pod
    network_receive := metricGetNA env.network_receive_data pod
    network_transmit := metricGetNA env.network_transmit_data pod
    network_receive_errors := metricGetNA env.network_receive_errors_data pod
    network_transmit_errors := metricGetNA env.network_transmit_errors_data pod
    last_log_entry := last_log_entry
    pod_status := st.status
    pod_reason := st.reason
    pod_restarts := st.restarts
    ready_containers := st.ready_containers
    total_containers := st.total_containers
    error_message := st.error_message
    latest_event_reason := event_reason
    pod_event := latest_pod_event_details
    node_event := latest_event_node_details }

/-- The row-emission loop of the static script (lines 251–287): iterate
over the union of usage and limit keys, skip excluded pods, emit one row
per remaining pod. -/
def emitCycleRows (env : Env) : List Row :=
  ((candidatePods env.memory_usage_data env.memory_limit_data).filter
    (fun pod => !(should_exclude_pod pod))).map (rowFor env)

/-- `query_prometheus` of the Azure script (lines 75–87). The token is
acquired *outside* the `try` block, so a credential failure propagates
(`.error`); a `RequestException` from the query itself is caught and the
empty mapping returned. `cred` is the outcome of `get_access_token`,
`resp` the outcome of the authenticated request and parse. -/
def query_prometheus_az (cred : Except String String)
    (resp : Except String MetricMap) : Except String MetricMap :=
  match cred with
  | .error e => .error e
  | .ok _token =>
    match resp with
    | .ok m => .ok m
    | .error _ => .ok []

/-- One row appended by the Azure script's `collect_pod_metrics`
(lines 186–199); field order follows the dict literal. -/
structure RowAz where
  timestamp : String
  pod_name : String
  cpu_usage : CellVal
  memory_usage_percentage : CellVal
  pod_status : String
  pod_reason : Option RVal
  pod_restarts : Nat
  ready_containers : Nat
  total_containers : Nat
  error_message : Option String
  pod_event : PodEventSummary
  node_event : NodeEventSummary
deriving Repr, DecidableEq

/-- The external world one Azure collection cycle observes: the outcome
of the pod listing, of `get_access_token` before each of the three
queries, of the three query requests, and of the per-pod Kubernetes
calls. -/
structure EnvAz where
  listPods : Except String (List (String × String))
  cred1 : Except String String
  cred2 : Except String String
  cred3 : Except String String
  cpuResp : Except String MetricMap
  memResp : Except String MetricMap
  limResp : Except String MetricMap
  podLookup : String → PodLookup
  podEvents : String → Lookup (List Event)
  podRead : String → Lookup PodObj
  nodeEvents : String → Lookup (List Event)
  timestamp : String
  now : Nat

/-- The per-pod body of the Azure row loop (lines 176–199), with the
memory percentage computed inline exactly as on lines 179–181. -/
def azRowFor (env : EnvAz) (cpu mem lim : MetricMap) (pod : String) :
    RowAz :=
  let memory_usage_percentage :=
    if metricGet lim pod 0 > 0 then
      CellVal.num (metricGet mem pod 0 / metricGet lim pod 0 * 100)
    else CellVal.na
  let st := get_pod_status_az (env.podLookup pod)
  let latest_pod_event_details := get_latest_pod_event_az (env.podEvents pod) env.now
  let node_name := get_pod_node_name (env.podRead pod)
  let latest_event_node_details :=
    get_latest_event_details_node_az node_name (env.nodeEvents node_name) env.now
  { timestamp := env.timestamp
    pod_name := pod
    cpu_usage := metricGetNA cpu pod
    memory_usage_percentage := memory_usage_percentage
    pod_status := st.status
    pod_reason := st.reason
    pod_restarts := st.restarts
    ready_containers := st.ready_containers
    total_containers := st.total_containers
    error_message := st.error_message
    pod_event := latest_pod_event_details
    node_event := latest_event_node_details }

/-- The Azure row loop over the key union (lines 174–199). -/
def azEmitRows (env : EnvAz) (cpu mem lim : MetricMap) : List RowAz :=
  ((candidatePods mem lim).filter
    (fun pod => !(should_exclude_pod pod))).map (azRowFor env cpu mem lim)

/-- `collect_pod_metrics` of the Azure script (lines 159–201). No
exception is caught here: an error from the pod listing or from any of
the three `query_prometheus` calls (in particular a credential failure)
propagates out of the whole cycle. -/
def collect_pod_metrics_az (env : EnvAz) : Except String (List RowAz) := do
  let _current_pods ← env.listPods
  let cpu_usage_data ← query_prometheus_az env.cred1 env.cpuResp
  let memory_usage_data ← query_prometheus_az env.cred2 env.memResp
  let memory_limit_data ← query_prometheus_az env.cred3 env.limResp
  return azEmitRows env cpu_usage_data memory_usage_data memory_limit_data

/-- One iteration of the Azure `main` loop (lines 215–224) up to the
write: an exception from the cycle is caught and logged, producing no
rows for that tick. -/
def cycle_az (env : EnvAz) : Option (List RowAz) :=
  (collect_pod_metrics_az env).toOption

/-- A `pandas.DataFrame`: column labels and rows of rendered cells. -/
structure DFrame where
  cols : List String
  rows : List (List String)
deriving Repr, DecidableEq

/-- `pd.DataFrame(records)` for a list of same-keyed dicts: columns from
the first record, no columns at all when the list is empty. -/
def mkDF (records : List (List (String × String))) : DFrame :=
  match records with
  | [] => ⟨[], []⟩
  | r :: _ => ⟨r.map Prod.fst, records.map (fun rec => rec.map Prod.snd)⟩

/-- `df.to_csv(..., index=False, header=header)` rendered to a string:
one comma-joined line per header/row, each terminated by a newline.
With no columns and `header=True` pandas still emits the (empty) header
line, i.e. a single newline. Cell quoting is not modelled (cells are
taken as already rendered). -/
def toCsvContent (df : DFrame) (header : Bool) : String :=
  (if header then String.intercalate "," df.cols ++ "\n" else "")
    ++ String.join (df.rows.map (fun r => String.intercalate "," r ++ "\n"))

/-- `write_to_csv` of the Azure script (lines 204–208): header exactly
when the destination does not yet exist; always open in append mode
(which creates a missing file). The file state is `none` when the
destination does not exist, else `some content`. -/
def write_to_csv (fileState : Option String)
    (records : List (List (String × String))) : Option String :=
  let df := mkDF records
  let write_header := fileState.isNone
  some (fileState.getD "" ++ toCsvContent df write_header)

/-- The append block of the static script (lines 292–296):
`mode='w'` with header when the destination does not exist, else
`mode='a'` without header. -/
def appendRowsStatic (fileState : Option String)
    (records : List (List (String × String))) : Option String :=
  let df := mkDF records
  match fileState with
  | none => some (toCsvContent df true)
  | some content => some (content ++ toCsvContent df false)

/-- `(l.map (·.restart_count)).sum`: total restarts of a status list. -/
def sumRestarts (l : List ContainerStatus) : Nat :=
  (l.map (·.restart_count)).sum

/-- Restarts the static init loop actually accumulates: every container
up to and including the first one whose terminated state has nonzero
exit code (the loop `break`s there). -/
def initRestartsUpToFail : List ContainerStatus → Nat
  | [] => 0
  | c :: cs =>
    c.restart_count + (if initFail c then 0 else initRestartsUpToFail cs)

/-- An event carrying only an `event_time`: its timestamp is resolvable
by `get_event_timestamp` but it has no `last_timestamp`. -/
def evOnlyEventTime : Event :=
  ⟨none, some 5, none, "Warning", "FailedScheduling", "scheduler", "no nodes available"⟩

/-- An ordinary event with a `last_timestamp`. -/
def evWithLast : Event :=
  ⟨some 7, none, none, "Warning", "BackOff", "kubelet", "back-off restarting container"⟩

/-- An init container whose terminated state has exit code 1 and two
recorded restarts. -/
def initFailedC : ContainerStatus :=
  ⟨⟨none, some ⟨some "Error", 1⟩⟩, 2, false⟩

/-- A quiescent regular container with five recorded restarts. -/
def regQuietC : ContainerStatus :=
  ⟨⟨none, none⟩, 5, true⟩

/-- A pod with one failed init container and one regular container. -/
def podInitMixed : PodObj :=
  ⟨⟨["main", "sidecar"], "node-1"⟩,
   ⟨"Running", none, some [initFailedC], some [regQuietC]⟩⟩

/-- An init container terminated with exit code 1 and reason
`CrashLoopBackOff`. -/
def initCrashC : ContainerStatus :=
  ⟨⟨none, some ⟨some "CrashLoopBackOff", 1⟩⟩, 3, false⟩

/-- A regular container waiting with reason `ImagePullBackOff`. -/
def regWaitingC : ContainerStatus :=
  ⟨⟨some ⟨some "ImagePullBackOff"⟩, none⟩, 0, false⟩

/-- A pod whose only init container crashed, alongside a waiting regular
container. -/
def podInitCrashed : PodObj :=
  ⟨⟨["main"], "node-1"⟩,
   ⟨"Pending", none, some [initCrashC], some [regWaitingC]⟩⟩

/-- A static-script cycle environment whose metric mappings mention the
excluded pod `prometheus-x` next to the ordinary pod `checkout`; every
Kubernetes call is down. -/
def envExcl : Env :=
  { cpu_usage_data := []
    memory_usage_data := [("prometheus-x", 5), ("checkout", 5)]
    memory_limit_data := [("checkout", 10)]
    network_traffic_data := []
    network_receive_data := []
    network_transmit_data := []
    network_receive_errors_data := []
    network_transmit_errors_data := []
    podLookup := fun _ => .exn "api down"
    podRead := fun _ => .exn "api down"
    podEvents := fun _ => .exn "api down"
    nodeEvents := fun _ => .exn "api down"
    logOf := fun _ => .exn "api down"
    timestamp := "2024-01-01 00:00:00"
    now := 100 }

/-- A static-script cycle environment where `checkout` has a memory
limit of 10 MiB but no memory-usage sample. -/
def envNoUsage : Env :=
  { envExcl with
    memory_usage_data := []
    memory_limit_data := [("checkout", 10)] }

/-- A static-script cycle environment where `checkout` has a usage
sample but is absent from the limit mapping. -/
def envNoLimit : Env :=
  { envExcl with
    memory_usage_data := [("checkout", 5)]
    memory_limit_data := [] }

/-- An Azure cycle environment in which token acquisition fails before
the first metric query while the memory and limit queries would have
returned data for `checkout`. -/
def envCredFail : EnvAz :=
  { listPods := .ok [("checkout", "Running")]
    cred1 := .error "invalid_client"
    cred2 := .ok "token"
    cred3 := .ok "token"
    cpuResp := .ok [("checkout", 1)]
    memResp := .ok [("checkout", 50)]
    limResp := .ok [("checkout", 100)]
    podLookup := fun _ => .exn "api down"
    podEvents := fun _ => .exn "api down"
    podRead := fun _ => .exn "api down"
    nodeEvents := fun _ => .exn "api down"
    timestamp := "2024-01-01 00:00:00"
    now := 100 }

/-- The same Azure cycle environment with working credentials but a
connection error on the CPU query. -/
def envCpuDown : EnvAz :=
  { envCredFail with
    cred1 := .ok "token"
    cpuResp := .error "connection refused" }

theorem pickLatestBy_mem (key : Event → Nat) :
    ∀ {l : List Event} {e : Event}, pickLatestBy key l = some e → e ∈ l := by
  intro l
  induction l with
  | nil => intro e h; exact Option.noConfusion h
  | cons a as ih =>
    intro e h
    rw [pickLatestBy] at h
    cases hm : pickLatestBy key as with
    | none =>
      rw [hm] at h
      have h' : some a = some e := h
      exact (Option.some_inj.mp h') ▸ List.mem_cons_self a as
    | some m =>
      rw [hm] at h
      have h' : (if key m ≤ key a then some a else some m) = some e := h
      by_cases hk : key m ≤ key a
      · rw [if_pos hk] at h'
        exact (Option.some_inj.mp h') ▸ List.mem_cons_self a as
      · rw [if_neg hk] at h'
        exact List.mem_cons_of_mem a ((Option.some_inj.mp h') ▸ ih hm)

theorem pickLatestBy_ne_none (key : Event → Nat) (a : Event) (as : List Event) :
    pickLatestBy key (a :: as) ≠ none := by
  intro h
  rw [pickLatestBy] at h
  cases hm : pickLatestBy key as with
  | none =>
    rw [hm] at h
    exact Option.noConfusion (show some a = (none : Option Event) from h)
  | some m =>
    rw [hm] at h
    have h' : (if key m ≤ key a then some a else some m) = none := h
    by_cases hk : key m ≤ key a
    · rw [if_pos hk] at h'; exact Option.noConfusion h'
    · rw [if_neg hk] at h'; exact Option.noConfusion h'

theorem pickLatestBy_max (key : Event → Nat) :
    ∀ {l : List Event} {e : Event}, pickLatestBy key l = some e →
      ∀ x ∈ l, key x ≤ key e := by
  intro l
  induction l with
  | nil => intro e h; exact Option.noConfusion h
  | cons a as ih =>
    intro e h x hx
    rw [pickLatestBy] at h
    cases hm : pickLatestBy key as with
    | none =>
      rw [hm] at h
      have he : a = e := Option.some_inj.mp h
      rcases List.mem_cons.mp hx with hxa | hxs
      · exact le_of_eq (by rw [hxa, he])
      · cases as with
        | nil => simp at hxs
        | cons b bs => exact absurd hm (pickLatestBy_ne_none key b bs)
    | some m =>
      rw [hm] at h
      have h' : (if key m ≤ key a then some a else some m) = some e := h
      by_cases hk : key m ≤ key a
      · rw [if_pos hk] at h'
        have he : a = e := Option.some_inj.mp h'
        rcases List.mem_cons.mp hx with hxa | hxs
        · exact le_of_eq (by rw [hxa, he])
        · exact he ▸ le_trans (ih hm x hxs) hk
      · rw [if_neg hk] at h'
        have he : m = e := Option.some_inj.mp h'
        rcases List.mem_cons.mp hx with hxa | hxs
        · rw [hxa, ← he]; exact le_of_not_le hk
        · exact he ▸ ih hm x hxs

theorem pickLatestBy_isSome (key : Event → Nat) :
    ∀ {l : List Event}, l ≠ [] → ∃ e, pickLatestBy key l = some e := by
  intro l
  induction l with
  | nil => intro h; exact absurd rfl h
  | cons a as _ =>
    intro _
    cases hm : pickLatestBy key as with
    | none => exact ⟨a, by rw [pickLatestBy, hm]⟩
    | some m =>
      by_cases hk : key m ≤ key a
      · refine ⟨a, ?_⟩
        rw [pickLatestBy, hm]
        exact if_pos hk
      · refine ⟨m, ?_⟩
        rw [pickLatestBy, hm]
        exact if_neg hk

/-- C10: in the static-config script, the node-level event summary
always carries the queried node name — the returned record's `Node Name`
field equals the input in all three outcome classes (event found, no
events found, lookup failed). -/
theorem c10_node_summary_keeps_name (node_name : String)
    (lk : Lookup (List Event)) (now : Nat) :
    (get_latest_event_details_node node_name lk now).node_name = node_name := by
  cases lk with
  | ok events =>
    cases h : nodeLatest events with
    | none => simp [get_latest_event_details_node, h]
    | some e => simp [get_latest_event_details_node, h]
  | exn msg => rfl

/-- C7: when the memory limit is 0 (more generally, not positive) or the
pod is absent from the limit mapping, the derived usage percentage is
the `'N/A'` marker (the guarded branch, so no division is attempted),
and when the limit is positive it equals 100 × usage / limit. -/
theorem c7_percentage_safe :
    (∀ usage limit : Rat, limit ≤ 0 → calculate_percentage usage limit = CellVal.na)
    ∧ (∀ usage limit : Rat, 0 < limit →
        calculate_percentage usage limit = CellVal.num (100 * usage / limit))
    ∧ (∀ (env : Env) (pod : String),
        List.find? (fun p => p.1 == pod) env.memory_limit_data = none →
        (rowFor env pod).memory_usage_percentage = CellVal.na) := by
  refine ⟨?_, ?_, ?_⟩
  · intro u l h
    simp [calculate_percentage, not_lt.mpr h]
  · intro u l h
    simp only [calculate_percentage, if_pos h]
    rw [div_mul_eq_mul_div, mul_comm]
  · intro env pod h
    simp [rowFor, metricGet, h, calculate_percentage]

theorem c7_percentage_safe_witness :
    calculate_percentage 5 0 = CellVal.na
    ∧ calculate_percentage 5 2 = CellVal.num (100 * 5 / 2)
    ∧ (rowFor envNoLimit "checkout").memory_usage_percentage = CellVal.na :=
  ⟨c7_percentage_safe.1 5 0 (by norm_num),
   c7_percentage_safe.2.1 5 2 (by norm_num),
   c7_percentage_safe.2.2 envNoLimit "checkout" (by decide)⟩

/-- C3 counterexample: appending zero rows when the destination file
does not yet exist is not a no-op — both sinks create the file and
write the (empty) header line, so the destination goes from nonexistent
to a one-byte file. -/
theorem c3_counterexample :
    write_to_csv none [] = some "\n" ∧ appendRowsStatic none [] = some "\n" :=
  ⟨rfl, rfl⟩

/-- C3 (amended): on an already-existing destination the sinks are
left-idempotent on empty input (zero rows leave size and content
unchanged) and strictly appending (every call only adds a suffix to the
persisted bytes); only on a nonexistent destination does a zero-row
call create the file with a single empty header line. -/
theorem c3_amended_append_sink :
    (∀ content : String, write_to_csv (some content) [] = some content)
    ∧ (∀ (content : String) (records : List (List (String × String))),
        ∃ suffix, write_to_csv (some content) records = some (content ++ suffix))
    ∧ (∀ content : String, appendRowsStatic (some content) [] = some content)
    ∧ (∀ (content : String) (records : List (List (String × String))),
        ∃ suffix, appendRowsStatic (some content) records = some (content ++ suffix)) := by
  refine ⟨?_, ?_, ?_, ?_⟩
  · intro c
    show some (c ++ "") = some c
    rw [String.append_empty]
  · intro c records
    exact ⟨toCsvContent (mkDF records) false, rfl⟩
  · intro c
    show some (c ++ "") = some c
    rw [String.append_empty]
  · intro c records
    exact ⟨toCsvContent (mkDF records) false, rfl⟩

/-- C1 counterexample: in the static script, the found-nothing pod
summary does not put `'N/A'` in every field — its type field is the
`'No recent events'` literal — and the node summary's name field keeps
the queried node name even when the lookup raises, instead of the
`'Unknown'` placeholder. -/
theorem c1_counterexample :
    (get_latest_pod_event (.ok []) 0).type = "No recent events"
    ∧ (get_latest_pod_event (.ok []) 0).reason = "N/A"
    ∧ "No recent events" ≠ "N/A"
    ∧ (get_latest_event_details_node "aks-node-1" (.exn "timeout") 0).node_name
        = "aks-node-1"
    ∧ "aks-node-1" ≠ "Unknown" :=
  ⟨rfl, rfl, by decide, rfl, by decide⟩

/-- C1 (amended): each correlator uses one outcome class consistently,
but the static script's markers are per-field: on lookup failure the pod
summary is `Error`/`Unknown`×4 and the node summary keeps the queried
node name with `Unknown` in the other four fields; on found-nothing the
pod type (resp. node reason) field is `No recent events` with `N/A` in
the remaining fields (the node summary again keeping the name); when an
event is found every field holds the actual value. The Azure script's
correlators use `N/A` resp. `Unknown` uniformly in all five fields. -/
theorem c1_amended_summary_classes :
    (∀ (msg : String) (now : Nat), get_latest_pod_event (.exn msg) now
      = ⟨"Error", "Unknown", "Unknown", "Unknown", "Unknown"⟩)
    ∧ (∀ (es : List Event) (now : Nat), podLatest es = none →
        get_latest_pod_event (.ok es) now
          = ⟨"No recent events", "N/A", "N/A", "N/A", "N/A"⟩)
    ∧ (∀ (es : List Event) (now : Nat) (e : Event), podLatest es = some e →
        get_latest_pod_event (.ok es) now
          = ⟨e.type, e.reason, ageStr (now - e.last_timestamp.getD 0),
              e.source_component, e.message⟩)
    ∧ (∀ (n msg : String) (now : Nat), get_latest_event_details_node n (.exn msg) now
      = ⟨n, "Unknown", "Unknown", "Unknown", "Unknown"⟩)
    ∧ (∀ (n : String) (es : List Event) (now : Nat), nodeLatest es = none →
        get_latest_event_details_node n (.ok es) now
          = ⟨n, "No recent events", "N/A", "N/A", "N/A"⟩)
    ∧ (∀ (n : String) (es : List Event) (now : Nat) (e : Event),
        nodeLatest es = some e →
        get_latest_event_details_node n (.ok es) now
          = ⟨n, e.reason, ageStr (now - (get_event_timestamp e).getD 0),
              e.source_component, e.message⟩)
    ∧ (∀ (msg : String) (now : Nat), get_latest_pod_event_az (.exn msg) now
      = ⟨"Unknown", "Unknown", "Unknown", "Unknown", "Unknown"⟩)
    ∧ (∀ (es : List Event) (now : Nat), podLatest es = none →
        get_latest_pod_event_az (.ok es) now = ⟨"N/A", "N/A", "N/A", "N/A", "N/A"⟩)
    ∧ (∀ (n msg : String) (now : Nat),
        get_latest_event_details_node_az n (.exn msg) now
          = ⟨"Unknown", "Unknown", "Unknown", "Unknown", "Unknown"⟩)
    ∧ (∀ (n : String) (es : List Event) (now : Nat), nodeLatest es = none →
        get_latest_event_details_node_az n (.ok es) now
          = ⟨"N/A", "N/A", "N/A", "N/A", "N/A"⟩) := by
  refine ⟨fun msg now => rfl, ?_, ?_, fun n msg now => rfl, ?_, ?_,
    fun msg now => rfl, ?_, fun n msg now => rfl, ?_⟩
  · intro es now h; simp [get_latest_pod_event, h]
  · intro es now e h; simp [get_latest_pod_event, h]
  · intro n es now h; simp [get_latest_event_details_node, h]
  · intro n es now e h; simp [get_latest_event_details_node, h]
  · intro es now h; simp [get_latest_pod_event_az, h]
  · intro n es now h; simp [get_latest_event_details_node_az, h]

theorem c1_amended_summary_classes_witness :
    podLatest ([] : List Event) = none
    ∧ get_latest_pod_event (.ok []) 3 = ⟨"No recent events", "N/A", "N/A", "N/A", "N/A"⟩
    ∧ podLatest [evWithLast] = some evWithLast
    ∧ get_latest_pod_event (.ok [evWithLast]) 9
        = ⟨evWithLast.type, evWithLast.reason,
            ageStr (9 - evWithLast.last_timestamp.getD 0),
            evWithLast.source_component, evWithLast.message⟩
    ∧ nodeLatest [evOnlyEventTime] = some evOnlyEventTime
    ∧ get_latest_event_details_node "node-1" (.ok [evOnlyEventTime]) 9
        = ⟨"node-1", evOnlyEventTime.reason,
            ageStr (9 - (get_event_timestamp evOnlyEventTime).getD 0),
            evOnlyEventTime.source_component, evOnlyEventTime.message⟩ := by
  obtain ⟨-, h2, h3, -, -, h6, -, -, -, -⟩ := c1_amended_summary_classes
  exact ⟨rfl, h2 [] 3 rfl, rfl, h3 [evWithLast] 9 evWithLast rfl, rfl,
    h6 "node-1" [evOnlyEventTime] 9 evOnlyEventTime rfl⟩

/-- C2 counterexample: the pod-level correlator does not use the
three-way timestamp resolution — an event whose timestamp is resolvable
through its event-time field (no last-observed timestamp) is discarded,
and the lookup reports that no timestamped event remains. -/
theorem c2_counterexample :
    get_event_timestamp evOnlyEventTime = some 5
    ∧ evOnlyEventTime.last_timestamp = none
    ∧ get_latest_pod_event (.ok [evOnlyEventTime]) 9
        = ⟨"No recent events", "N/A", "N/A", "N/A", "N/A"⟩ :=
  ⟨rfl, rfl, rfl⟩

/-- C2 (amended): `get_event_timestamp` resolves the timestamp in the
priority order last-observed, event-time, first-observed; the
*node-level* correlator keeps exactly the events with a resolvable
timestamp and selects a kept event of maximal resolved timestamp, never
returning the empty summary while some event is resolvable; the
*pod-level* correlator instead consults only the last-observed
timestamp: it keeps exactly the events having one, selects by maximal
last-observed timestamp, and discards events resolvable only through
event-time or first-observed. -/
theorem c2_amended_timestamp_resolution :
    (∀ e : Event, e.last_timestamp.isSome = true →
        get_event_timestamp e = e.last_timestamp)
    ∧ (∀ e : Event, e.last_timestamp = none → e.event_time.isSome = true →
        get_event_timestamp e = e.event_time)
    ∧ (∀ e : Event, e.last_timestamp = none → e.event_time = none →
        get_event_timestamp e = e.first_timestamp)
    ∧ (∀ (es : List Event) (e : Event),
        e ∈ validNodeEvents es ↔ e ∈ es ∧ (get_event_timestamp e).isSome = true)
    ∧ (∀ (es : List Event) (e : Event), nodeLatest es = some e →
        e ∈ validNodeEvents es ∧ ∀ x ∈ validNodeEvents es,
          (get_event_timestamp x).getD 0 ≤ (get_event_timestamp e).getD 0)
    ∧ (∀ es : List Event, (∃ e ∈ es, (get_event_timestamp e).isSome = true) →
        ∃ e, nodeLatest es = some e)
    ∧ (∀ (es : List Event) (e : Event),
        e ∈ validPodEvents es ↔ e ∈ es ∧ e.last_timestamp.isSome = true)
    ∧ (∀ (es : List Event) (e : Event), podLatest es = some e →
        e ∈ validPodEvents es ∧ ∀ x ∈ validPodEvents es,
          x.last_timestamp.getD 0 ≤ e.last_timestamp.getD 0)
    ∧ (∃ e : Event, (get_event_timestamp e).isSome = true ∧ podLatest [e] = none) := by
  refine ⟨?_, ?_, ?_, ?_, ?_, ?_, ?_, ?_, ⟨evOnlyEventTime, rfl, rfl⟩⟩
  · intro e h; simp [get_event_timestamp, h]
  · intro e h1 h2; simp [get_event_timestamp, h1, h2]
  · intro e h1 h2; simp [get_event_timestamp, h1, h2]
  · intro es e; simp [validNodeEvents, List.mem_filter]
  · intro es e h
    exact ⟨pickLatestBy_mem _ h, fun x hx => pickLatestBy_max _ h x hx⟩
  · intro es ⟨e, he, hts⟩
    have hne : validNodeEvents es ≠ [] := by
      intro hnil
      have : e ∈ validNodeEvents es := List.mem_filter.mpr ⟨he, hts⟩
      rw [hnil] at this
      simp at this
    exact pickLatestBy_isSome _ hne
  · intro es e; simp [validPodEvents, List.mem_filter]
  · intro es e h
    exact ⟨pickLatestBy_mem _ h, fun x hx => pickLatestBy_max _ h x hx⟩

theorem c2_amended_timestamp_resolution_witness :
    get_event_timestamp evWithLast = evWithLast.last_timestamp
    ∧ get_event_timestamp evOnlyEventTime = evOnlyEventTime.event_time
    ∧ (evOnlyEventTime ∈ validNodeEvents [evWithLast, evOnlyEventTime]
        ↔ evOnlyEventTime ∈ [evWithLast, evOnlyEventTime]
          ∧ (get_event_timestamp evOnlyEventTime).isSome = true)
    ∧ (evWithLast ∈ validNodeEvents [evWithLast, evOnlyEventTime]
        ∧ ∀ x ∈ validNodeEvents [evWithLast, evOnlyEventTime],
          (get_event_timestamp x).getD 0 ≤ (get_event_timestamp evWithLast).getD 0)
    ∧ (∃ e, nodeLatest [evOnlyEventTime] = some e)
    ∧ (evWithLast ∈ validPodEvents [evWithLast, evOnlyEventTime]
        ∧ ∀ x ∈ validPodEvents [evWithLast, evOnlyEventTime],
          x.last_timestamp.getD 0 ≤ evWithLast.last_timestamp.getD 0) := by
  obtain ⟨h1, h2, -, h4, h5, h6, -, h8, -⟩ := c2_amended_timestamp_resolution
  exact ⟨h1 evWithLast rfl, h2 evOnlyEventTime rfl rfl,
    h4 [evWithLast, evOnlyEventTime] evOnlyEventTime,
    h5 [evWithLast, evOnlyEventTime] evWithLast rfl,
    h6 [evOnlyEventTime] ⟨evOnlyEventTime, by decide, rfl⟩,
    h8 [evWithLast, evOnlyEventTime] evWithLast rfl⟩

/-- C4 counterexample: in the Azure script the token is acquired outside
the `try` guard, so when token acquisition fails before the first metric
query the whole collection cycle errors out and produces no rows — even
though the memory and limit queries had data — whereas the same cycle
with a valid credential yields rows. -/
theorem c4_counterexample :
    collect_pod_metrics_az envCredFail = .error "invalid_client"
    ∧ (collect_pod_metrics_az
        { envCredFail with cred1 := .ok "token" }).toOption.isSome = true :=
  ⟨rfl, rfl⟩

/-- C4 (amended): a credential failure is not confined to the one metric
query — the exception propagates out of `collect_pod_metrics`, aborting
the entire cycle (no state reads, event lookups or row assembly happen;
the scheduler loop catches it, so the tick yields nothing). Only a
transport failure of the query itself is confined: with valid
credentials it degrades to an empty mapping and the cycle still
assembles rows from the remaining data. -/
theorem c4_amended_cred_failure_aborts_cycle :
    (∀ (env : EnvAz) (pods : List (String × String)) (e : String),
        env.listPods = .ok pods → env.cred1 = .error e →
        collect_pod_metrics_az env = .error e ∧ cycle_az env = none)
    ∧ (∀ (env : EnvAz) (pods : List (String × String))
        (t1 t2 t3 msg : String) (memMap limMap : MetricMap),
        env.listPods = .ok pods → env.cred1 = .ok t1 → env.cred2 = .ok t2 →
        env.cred3 = .ok t3 → env.cpuResp = .error msg →
        env.memResp = .ok memMap → env.limResp = .ok limMap →
        collect_pod_metrics_az env = .ok (azEmitRows env [] memMap limMap)) := by
  constructor
  · intro env pods e hl hc
    have habort : collect_pod_metrics_az env = .error e := by
      simp only [collect_pod_metrics_az, hl, hc, query_prometheus_az]
      rfl
    exact ⟨habort, by simp [cycle_az, habort, Except.toOption]⟩
  · intro env pods t1 t2 t3 msg memMap limMap hl h1 h2 h3 hcpu hm hlim
    simp only [collect_pod_metrics_az, hl, h1, h2, h3, hcpu, hm, hlim,
      query_prometheus_az]
    rfl

theorem c4_amended_cred_failure_aborts_cycle_witness :
    envCredFail.listPods = .ok [("checkout", "Running")]
    ∧ envCredFail.cred1 = .error "invalid_client"
    ∧ collect_pod_metrics_az envCredFail = .error "invalid_client"
    ∧ cycle_az envCredFail = none
    ∧ envCpuDown.cpuResp = .error "connection refused"
    ∧ collect_pod_metrics_az envCpuDown
        = .ok (azEmitRows envCpuDown [] [("checkout", 50)] [("checkout", 100)]) := by
  obtain ⟨ha, hb⟩ := c4_amended_cred_failure_aborts_cycle
  have h1 := ha envCredFail [("checkout", "Running")] "invalid_client" rfl rfl
  have h2 := hb envCpuDown [("checkout", "Running")] "token" "token" "token"
    "connection refused" [("checkout", 50)] [("checkout", 100)]
    rfl rfl rfl rfl rfl rfl rfl
  exact ⟨rfl, rfl, h1.1, h1.2, rfl, h2⟩

/-- C5 counterexample: for a pod with one init container (2 restarts,
terminated with exit code 1) and one regular container (5 restarts),
the static script reports 2 restarts (the regular loop is skipped after
an init failure) and the Azure script reports 5 (init containers are
never summed); neither equals the 7 the claim requires. -/
theorem c5_counterexample :
    (get_pod_status "checkout" (.ok podInitMixed)).restarts = 2
    ∧ (get_pod_status_az (.ok podInitMixed)).restarts = 5
    ∧ sumRestarts (podInitMixed.status.init_container_statuses.getD [])
        + sumRestarts (podInitMixed.status.container_statuses.getD []) = 7 :=
  ⟨rfl, rfl, rfl⟩

theorem initLoop_fst (l : List ContainerStatus) :
    ∀ (acc : Nat) (reason : Option RVal),
      (initLoop l acc reason).1 = acc + initRestartsUpToFail l := by
  induction l with
  | nil => intro acc reason; simp [initLoop, initRestartsUpToFail]
  | cons c cs ih =>
    intro acc reason
    cases h : c.state.terminated with
    | none =>
      have hf : initFail c = false := by simp [initFail, h]
      simp [initLoop, initRestartsUpToFail, hf, ih]
      omega
    | some t =>
      by_cases he : t.exit_code = 0
      · have hf : initFail c = false := by simp [initFail, h, he]
        simp [initLoop, initRestartsUpToFail, hf, ih]
        omega
      · have hf : initFail c = true := by simp [initFail, h, he]
        simp [initLoop, initRestartsUpToFail, hf, h]

theorem regLoop_fst (l : List ContainerStatus) :
    ∀ (acc : Nat) (reason : Option RVal),
      (regLoop l acc reason).1 = acc + sumRestarts l := by
  induction l with
  | nil => intro acc reason; simp [regLoop, sumRestarts]
  | cons c cs ih =>
    intro acc reason
    simp [regLoop, sumRestarts, ih]
    omega

/-- C5 (amended): the static script's restart count is the sum of the
init-container restarts up to and including the first init container
that terminated nonzero (the loop breaks there), plus the
regular-container restarts only when there are no init-container
statuses or every init container terminated with exit code 0; the Azure
script's restart count is the sum over regular containers only. -/
theorem c5_amended_restart_count :
    (∀ (name : String) (pod : PodObj),
      (get_pod_status name (.ok pod)).restarts
        = initRestartsUpToFail (pod.status.init_container_statuses.getD [])
          + (if initOk pod.status.init_container_statuses then
              sumRestarts (pod.status.container_statuses.getD []) else 0))
    ∧ (∀ pod : PodObj, (get_pod_status_az (.ok pod)).restarts
        = sumRestarts (pod.status.container_statuses.getD [])) := by
  constructor
  · intro name pod
    by_cases h : initOk pod.status.init_container_statuses
    · simp [get_pod_status, h, regLoop_fst, initLoop_fst]
    · simp [get_pod_status, h, initLoop_fst]
  · intro pod
    simp [get_pod_status_az, sumRestarts]

/-- C6: in either script, no snapshot row is emitted for a pod whose
name contains a member of the exclusion list, whatever the metric
mappings hold. -/
theorem c6_exclusion_no_row :
    (∀ (env : Env) (pod : String), should_exclude_pod pod = true →
      ∀ r ∈ emitCycleRows env, r.pod_name ≠ pod)
    ∧ (∀ (env : EnvAz) (cpu mem lim : MetricMap) (pod : String),
        should_exclude_pod pod = true →
        ∀ r ∈ azEmitRows env cpu mem lim, r.pod_name ≠ pod) := by
  constructor
  · intro env pod hex r hr
    simp only [emitCycleRows, List.mem_map, List.mem_filter] at hr
    obtain ⟨q, ⟨_, hqex⟩, rfl⟩ := hr
    intro hname
    have hq : q = pod := hname
    rw [hq, hex] at hqex
    exact Bool.noConfusion hqex
  · intro env cpu mem lim pod hex r hr
    simp only [azEmitRows, List.mem_map, List.mem_filter] at hr
    obtain ⟨q, ⟨_, hqex⟩, rfl⟩ := hr
    intro hname
    have hq : q = pod := hname
    rw [hq, hex] at hqex
    exact Bool.noConfusion hqex

theorem c6_exclusion_no_row_witness :
    should_exclude_pod "prometheus-x" = true
    ∧ rowFor envExcl "checkout" ∈ emitCycleRows envExcl
    ∧ (rowFor envExcl "checkout").pod_name ≠ "prometheus-x"
    ∧ azRowFor envCpuDown [] [("prometheus-x", 5), ("checkout", 50)]
        [("checkout", 100)] "checkout"
      ∈ azEmitRows envCpuDown [] [("prometheus-x", 5), ("checkout", 50)]
        [("checkout", 100)]
    ∧ (azRowFor envCpuDown [] [("prometheus-x", 5), ("checkout", 50)]
        [("checkout", 100)] "checkout").pod_name ≠ "prometheus-x" := by
  have hlist : emitCycleRows envExcl = [rowFor envExcl "checkout"] := by rfl
  have hmem : rowFor envExcl "checkout" ∈ emitCycleRows envExcl := by
    rw [hlist]
    exact List.mem_singleton.mpr rfl
  have hlistAz : azEmitRows envCpuDown [] [("prometheus-x", 5), ("checkout", 50)]
      [("checkout", 100)]
      = [azRowFor envCpuDown [] [("prometheus-x", 5), ("checkout", 50)]
          [("checkout", 100)] "checkout"] := by rfl
  have hmemAz : azRowFor envCpuDown [] [("prometheus-x", 5), ("checkout", 50)]
      [("checkout", 100)] "checkout"
      ∈ azEmitRows envCpuDown [] [("prometheus-x", 5), ("checkout", 50)]
        [("checkout", 100)] := by
    rw [hlistAz]
    exact List.mem_singleton.mpr rfl
  exact ⟨by decide, hmem,
    c6_exclusion_no_row.1 envExcl "prometheus-x" (by decide) _ hmem,
    hmemAz,
    c6_exclusion_no_row.2 envCpuDown [] [("prometheus-x", 5), ("checkout", 50)]
      [("checkout", 100)] "prometheus-x" (by decide) _ hmemAz⟩

theorem initLoop_reason_found :
    ∀ (l : List ContainerStatus) (c : ContainerStatus) (t : TerminatedState),
      l.find? initFail = some c → c.state.terminated = some t →
      ∀ (acc : Nat) (reason : Option RVal),
        (initLoop l acc reason).2
          = some (.s ("Init: " ++ (pyOr t.reason t.exit_code).render)) := by
  intro l
  induction l with
  | nil => intro c t h; exact Option.noConfusion h
  | cons a as ih =>
    intro c t hfind hterm acc reason
    by_cases ha : initFail a = true
    · rw [List.find?_cons_of_pos _ ha] at hfind
      have hac : a = c := Option.some_inj.mp hfind
      subst hac
      rw [initLoop]
      simp only [ha, if_true, hterm]
    · have ha' : initFail a = false := by
        cases hb : initFail a
        · rfl
        · exact absurd hb ha
      rw [List.find?_cons_of_neg _ (by simp [ha'])] at hfind
      rw [initLoop]
      simp only [ha', Bool.false_eq_true, if_false]
      exact ih c t hfind hterm (acc + a.restart_count) reason

theorem initOk_false_of_find (l : List ContainerStatus) (c : ContainerStatus)
    (h : l.find? initFail = some c) : initOk (some l) = false := by
  have hc : initFail c = true := List.find?_some h
  have hm : c ∈ l := List.mem_of_find?_eq_some h
  rw [initOk, List.all_eq_false]
  refine ⟨c, hm, ?_⟩
  revert hc
  rw [initFail]
  cases c.state.terminated with
  | none => intro hc; exact Bool.noConfusion hc
  | some t =>
    intro hc
    simp only [decide_eq_true_eq] at hc
    simp [hc]

theorem reason_init_general (name : String) (pod : PodObj)
    (l : List ContainerStatus) (c : ContainerStatus) (t : TerminatedState)
    (hinit : pod.status.init_container_statuses = some l)
    (hfind : l.find? initFail = some c)
    (hterm : c.state.terminated = some t) :
    (get_pod_status name (.ok pod)).reason
      = some (.s ("Init: " ++ (pyOr t.reason t.exit_code).render)) := by
  have hloop := initLoop_reason_found l c t hfind hterm 0
    (some (.s (pod.status.reason.getD pod.status.phase)))
  simp [get_pod_status, hinit, hloop, initOk_false_of_find l c hfind]

/-- C8: for a workload whose init-container list contains a container
terminated with nonzero exit code, the derived reason is `"Init: "`
followed by the first such container's terminated reason (or its exit
code when the reason is falsy), and the regular containers' states are
not consulted: replacing the regular container statuses by anything at
all leaves the reason unchanged. -/
theorem c8_init_reason (name : String) (pod : PodObj)
    (l : List ContainerStatus) (c : ContainerStatus) (t : TerminatedState)
    (hinit : pod.status.init_container_statuses = some l)
    (hfind : l.find? initFail = some c)
    (hterm : c.state.terminated = some t) :
    (get_pod_status name (.ok pod)).reason
      = some (.s ("Init: " ++ (pyOr t.reason t.exit_code).render))
    ∧ ∀ regs : Option (List ContainerStatus),
      (get_pod_status name
        (.ok ⟨pod.spec, { pod.status with container_statuses := regs }⟩)).reason
      = some (.s ("Init: " ++ (pyOr t.reason t.exit_code).render)) := by
  refine ⟨reason_init_general name pod l c t hinit hfind hterm, fun regs => ?_⟩
  exact reason_init_general name
    ⟨pod.spec, { pod.status with container_statuses := regs }⟩ l c t
    (by simpa using hinit) hfind hterm

theorem c8_init_reason_witness :
    podInitCrashed.status.init_container_statuses = some [initCrashC]
    ∧ [initCrashC].find? initFail = some initCrashC
    ∧ initCrashC.state.terminated = some ⟨some "CrashLoopBackOff", 1⟩
    ∧ (get_pod_status "checkout" (.ok podInitCrashed)).reason
        = some (.s ("Init: " ++ (pyOr (some "CrashLoopBackOff") 1).render))
    ∧ ("Init: " ++ (pyOr (some "CrashLoopBackOff") (1 : Int)).render)
        = "Init: CrashLoopBackOff"
    ∧ (get_pod_status "checkout"
        (.ok ⟨podInitCrashed.spec,
          { podInitCrashed.status with container_statuses := some [regQuietC] }⟩)).reason
        = some (.s ("Init: " ++ (pyOr (some "CrashLoopBackOff") 1).render)) := by
  have h := c8_init_reason "checkout" podInitCrashed [initCrashC] initCrashC
    ⟨some "CrashLoopBackOff", 1⟩ rfl (by decide) rfl
  exact ⟨rfl, by decide, rfl, h.1, by decide, h.2 (some [regQuietC])⟩

/-- C9: in either script, a pod that has a positive memory limit but no
memory-usage sample still gets a row (it is in the key union), and that
row's usage percentage is the number 0 — the missing usage sample is
read as 0 — not the `'N/A'` marker. -/
theorem c9_missing_usage_zero_percent :
    (∀ (env : Env) (pod : String),
      List.find? (fun p => p.1 == pod) env.memory_usage_data = none →
      0 < metricGet env.memory_limit_data pod 0 →
      (∀ r ∈ emitCycleRows env, r.pod_name = pod →
        r.memory_usage_percentage = CellVal.num 0)
      ∧ (should_exclude_pod pod = false →
          ∃ r ∈ emitCycleRows env, r.pod_name = pod))
    ∧ (∀ (env : EnvAz) (cpu mem lim : MetricMap) (pod : String),
      List.find? (fun p => p.1 == pod) mem = none →
      0 < metricGet lim pod 0 →
      (∀ r ∈ azEmitRows env cpu mem lim, r.pod_name = pod →
        r.memory_usage_percentage = CellVal.num 0)
      ∧ (should_exclude_pod pod = false →
          ∃ r ∈ azEmitRows env cpu mem lim, r.pod_name = pod)) := by
  constructor
  · intro env pod hu hl
    constructor
    · intro r hr hname
      simp only [emitCycleRows, List.mem_map, List.mem_filter] at hr
      obtain ⟨q, ⟨_, _⟩, rfl⟩ := hr
      have hq : q = pod := hname
      subst hq
      show (rowFor env q).memory_usage_percentage = CellVal.num 0
      simp only [rowFor]
      rw [show metricGet env.memory_usage_data q 0 = 0 by rw [metricGet, hu]]
      rw [calculate_percentage, if_pos hl]
      norm_num
    · intro hexcl
      have hfind : ∃ p, List.find? (fun p => p.1 == pod) env.memory_limit_data
          = some p := by
        cases hf : List.find? (fun p => p.1 == pod) env.memory_limit_data with
        | none =>
          exfalso
          rw [metricGet, hf] at hl
          exact lt_irrefl 0 hl
        | some p => exact ⟨p, rfl⟩
      obtain ⟨p, hp⟩ := hfind
      have hmem := List.mem_of_find?_eq_some hp
      have hp1 : p.1 = pod := by simpa using List.find?_some hp
      have hcand : pod ∈ candidatePods env.memory_usage_data env.memory_limit_data := by
        rw [candidatePods, List.mem_dedup, List.mem_append]
        right
        exact List.mem_map.mpr ⟨p, hmem, hp1⟩
      refine ⟨rowFor env pod, ?_, rfl⟩
      simp only [emitCycleRows, List.mem_map]
      exact ⟨pod, List.mem_filter.mpr ⟨hcand, by simp [hexcl]⟩, rfl⟩
  · intro env cpu mem lim pod hu hl
    constructor
    · intro r hr hname
      simp only [azEmitRows, List.mem_map, List.mem_filter] at hr
      obtain ⟨q, ⟨_, _⟩, rfl⟩ := hr
      have hq : q = pod := hname
      subst hq
      show (azRowFor env cpu mem lim q).memory_usage_percentage = CellVal.num 0
      simp only [azRowFor]
      rw [show metricGet mem q 0 = 0 by rw [metricGet, hu]]
      rw [if_pos hl]
      norm_num
    · intro hexcl
      have hfind : ∃ p, List.find? (fun p => p.1 == pod) lim = some p := by
        cases hf : List.find? (fun p => p.1 == pod) lim with
        | none =>
          exfalso
          rw [metricGet, hf] at hl
          exact lt_irrefl 0 hl
        | some p => exact ⟨p, rfl⟩
      obtain ⟨p, hp⟩ := hfind
      have hmem := List.mem_of_find?_eq_some hp
      have hp1 : p.1 = pod := by simpa using List.find?_some hp
      have hcand : pod ∈ candidatePods mem lim := by
        rw [candidatePods, List.mem_dedup, List.mem_append]
        right
        exact List.mem_map.mpr ⟨p, hmem, hp1⟩
      refine ⟨azRowFor env cpu mem lim pod, ?_, rfl⟩
      simp only [azEmitRows, List.mem_map]
      exact ⟨pod, List.mem_filter.mpr ⟨hcand, by simp [hexcl]⟩, rfl⟩

theorem c9_missing_usage_zero_percent_witness :
    List.find? (fun p => p.1 == "checkout") envNoUsage.memory_usage_data = none
    ∧ 0 < metricGet envNoUsage.memory_limit_data "checkout" 0
    ∧ (rowFor envNoUsage "checkout").memory_usage_percentage = CellVal.num 0
    ∧ (∃ r ∈ emitCycleRows envNoUsage, r.pod_name = "checkout")
    ∧ (azRowFor envCpuDown [] [] [("checkout", 100)] "checkout").memory_usage_percentage
        = CellVal.num 0
    ∧ ∃ r ∈ azEmitRows envCpuDown [] [] [("checkout", 100)],
        r.pod_name = "checkout" := by
  have h := c9_missing_usage_zero_percent.1 envNoUsage "checkout" rfl (by decide)
  have haz := c9_missing_usage_zero_percent.2 envCpuDown [] [] [("checkout", 100)]
    "checkout" rfl (by decide)
  have hlist : emitCycleRows envNoUsage = [rowFor envNoUsage "checkout"] := by rfl
  have hmem : rowFor envNoUsage "checkout" ∈ emitCycleRows envNoUsage := by
    rw [hlist]
    exact List.mem_singleton.mpr rfl
  have hlistAz : azEmitRows envCpuDown [] [] [("checkout", 100)]
      = [azRowFor envCpuDown [] [] [("checkout", 100)] "checkout"] := by rfl
  have hmemAz : azRowFor envCpuDown [] [] [("checkout", 100)] "checkout"
      ∈ azEmitRows envCpuDown [] [] [("checkout", 100)] := by
    rw [hlistAz]
    exact List.mem_singleton.mpr rfl
  exact ⟨rfl, by decide, h.1 (rowFor envNoUsage "checkout") hmem rfl,
    h.2 (by decide),
    haz.1 (azRowFor envCpuDown [] [] [("checkout", 100)] "checkout") hmemAz rfl,
    haz.2 (by decide)⟩
